import Mathlib

/-!
# Grainmarch shader plugin: embedding of `PluginDefinition.cpp`

The C++ `float` and `double` are idealised as one exact scalar type `F`
(a field; `ℚ` when a value has to be computed).  The two places where the
source reinterprets the four bytes of a `DWORD` as a `float` take the
reinterpretation as an explicit function.  The `long` of `update_time` is a
two's complement integer whose width `longBits` is an argument.  GL and
shader-object calls are recorded, in call order, as a list of `GLCmd`.
-/

namespace Grainmarch

/-! ## Host ABI constants -/

/-- Modelled from the spec: the success code of the host ABI (`FFGL.h` is not among the
sources); the value is the one of the FreeFrame SDK. -/
def FF_SUCCESS : Nat := 0

/-- Modelled from the spec: the failure code of the host ABI (`FFGL.h` is not among the
sources); the value is the one of the FreeFrame SDK. -/
def FF_FAIL : Nat := 0xFFFFFFFF

/-! ## Parameter -/

/-- The class `Parameter`: one control of the plugin.  `Value` is the stored, normalised
value. -/
structure Parameter (F : Type) where
  Name : String
  ParamType : Int
  RangeMin : F
  RangeMax : F
  UniformLocation : Int
  Value : F

/-- The constructor `Parameter::Parameter(name, min, max, value, type)`. -/
def Parameter.ctor {F : Type} [Field F] (name : String) (min max value : F) (type : Int) :
    Parameter F :=
  { Name := name
    ParamType := type
    RangeMin := min
    RangeMax := max
    UniformLocation := -1
    Value := (value - min) / (max - min) }

/-- The method `Parameter::GetScaledValue`. -/
def Parameter.GetScaledValue {F : Type} [Field F] (p : Parameter F) : F :=
  p.RangeMin + p.Value * (p.RangeMax - p.RangeMin)

/-! ## Recorded GL calls -/

/-- The calls the plugin makes on the GL context, the extension table and the shader
object.  `glActiveTexture unit` stands for `glActiveTexture(GL_TEXTURE0 + unit)`,
`glBindTexture h` for `glBindTexture(GL_TEXTURE_2D, h)`, `glTexParameteri_WRAP_S_REPEAT`
and `glTexParameteri_WRAP_T_REPEAT` for the two `glTexParameteri(GL_TEXTURE_2D, …,
GL_REPEAT)` calls, `glBegin` for `glBegin(GL_QUADS)`. -/
inductive GLCmd (F : Type) where
  | extensionsInit : GLCmd F
  | SetExtensions : GLCmd F
  | Compile : GLCmd F
  | FreeGLResources : GLCmd F
  | BindShader : GLCmd F
  | UnbindShader : GLCmd F
  | glActiveTexture (unit : Nat) : GLCmd F
  | glBindTexture (handle : Nat) : GLCmd F
  | glTexParameteri_WRAP_S_REPEAT : GLCmd F
  | glTexParameteri_WRAP_T_REPEAT : GLCmd F
  | glUniform1iARB (location : Int) (v : Int) : GLCmd F
  | glUniform1fARB (location : Int) (v : F) : GLCmd F
  | glUniform3fvARB (location : Int) (count : Nat) (v : F × F × F) : GLCmd F
  | glBegin : GLCmd F
  | glTexCoord2f (s t : Int) : GLCmd F
  | glVertex2f (x y : Int) : GLCmd F
  | glEnd : GLCmd F
  deriving DecidableEq

/-! ## Host structures -/

/-- The host's texture descriptor; only `Handle` is read by the plugin. -/
structure FFGLTextureStruct where
  Width : Nat
  Height : Nat
  Handle : Nat
  deriving DecidableEq

/-- The frame request.  `inputTextures` is the array of texture pointers (`none` is
`nullptr`); `numInputTextures` is its length. -/
structure ProcessOpenGLStruct where
  inputTextures : List (Option FFGLTextureStruct)

/-- The field `numInputTextures` of a frame request. -/
def ProcessOpenGLStruct.numInputTextures (pGL : ProcessOpenGLStruct) : Nat :=
  pGL.inputTextures.length

/-- The pointer `pGL->inputTextures[ii]`.  `ProcessOpenGL` reads it only for `ii` below
`m_nInputs`, after checking `numInputTextures` against `m_nInputs`, so only inside the
array; past the end the embedding reads `none`. -/
def ProcessOpenGLStruct.inputTexture (pGL : ProcessOpenGLStruct) (ii : Nat) :
    Option FFGLTextureStruct :=
  pGL.inputTextures.getD ii none

/-- The argument of `SetParameter`. -/
structure SetParameterStruct where
  ParameterNumber : Nat
  NewParameterValue : Nat

/-- The viewport given to `InitGL`. -/
structure FFGLViewportStruct where
  x : Nat
  y : Nat
  width : Nat
  height : Nat

/-- What `gettimeofday` stores. -/
structure timeval where
  tv_sec : Int
  tv_usec : Int
  deriving DecidableEq

/-- What the GL context and the shader library answer during `InitGL`: the two capability
flags read after `m_extensions.Initialize()`, the value returned by `m_shader.Compile`
(zero when compiling or linking failed) and the result of `m_shader.FindUniform`. -/
structure GLContext where
  multitexture : Nat
  ARB_shader_objects : Nat
  compileResult : Nat
  FindUniform : String → Int

/-! ## The plugin instance -/

/-- The fields of `ShaderPlugin` that the methods of `PluginDefinition.cpp` read or write.
`m_nInputs` is a count (`0` for `SourcePlugin`, `1` for `EffectPlugin`).  The extension
table and the shader object are seen only through the calls recorded as `GLCmd`. -/
structure ShaderPlugin (F : Type) where
  m_initResources : Nat
  m_inputTextureLocationArray : List Int
  m_nInputs : Nat
  m_HostSupportsSetTime : Bool
  m_time : F
  m_startTime : F
  m_timeLocation : Int
  m_resolution : F × F × F
  m_resolutionLocation : Int
  m_parameters : List (Parameter F)

/-- What a call hands back: the returned code, the instance afterwards and the GL calls made,
in order. -/
structure Outcome (F : Type) where
  ret : Nat
  self : ShaderPlugin F
  gl : List (GLCmd F)

/-- The constructor `ShaderPlugin::ShaderPlugin(nInputs)`.  The table `shaderParameters`
copied by `InitParameters` and the value of `m_startTime`, which this file never assigns,
are arguments.  `SetMinInputs`, `SetMaxInputs`, `SetTimeSupported` and `SetParamInfo` write
state of the base class that no method of this file reads; they are left out. -/
def ShaderPlugin.ctor {F : Type} [Field F] (shaderParameters : List (Parameter F))
    (startTime : F) (nInputs : Nat) : ShaderPlugin F :=
  { m_initResources := 1
    m_inputTextureLocationArray := (List.range nInputs).map (fun _ => -1)
    m_nInputs := nInputs
    m_HostSupportsSetTime := false
    m_time := 0
    m_startTime := startTime
    m_timeLocation := -1
    m_resolution := (0, 0, 0)
    m_resolutionLocation := -1
    m_parameters := shaderParameters }

/-- The constructor `SourcePlugin::SourcePlugin`. -/
def SourcePlugin {F : Type} [Field F] (shaderParameters : List (Parameter F)) (startTime : F) :
    ShaderPlugin F :=
  ShaderPlugin.ctor shaderParameters startTime 0

/-- The constructor `EffectPlugin::EffectPlugin`. -/
def EffectPlugin {F : Type} [Field F] (shaderParameters : List (Parameter F)) (startTime : F) :
    ShaderPlugin F :=
  ShaderPlugin.ctor shaderParameters startTime 1

/-- The value a C++ `long` of `longBits` bits holds after a computation whose exact result
is `x`: two's complement wrap-around into `[-2 ^ (longBits - 1), 2 ^ (longBits - 1))`. -/
def wrapLong (longBits : Nat) (x : Int) : Int :=
  (x + 2 ^ (longBits - 1)) % 2 ^ longBits - 2 ^ (longBits - 1)

/-- Whether `x` is a value of a `long` of `longBits` bits. -/
def fitsLong (longBits : Nat) (x : Int) : Prop :=
  -(2 ^ (longBits - 1)) ≤ x ∧ x < 2 ^ (longBits - 1)

instance (longBits : Nat) (x : Int) : Decidable (fitsLong longBits x) := by
  unfold fitsLong
  exact inferInstance

/-- The function `update_time` (branch without `_WIN32`): the new value of `*t`, from the
start time `t0` and the reading `time` of `gettimeofday`.  `longBits` is the width of the
platform's `long`, in which the product `tv_sec * 1000` and the sum `millis` are computed;
`tv_usec / 1000` truncates as in C++. -/
def update_time {F : Type} [Field F] (longBits : Nat) (t0 : F) (time : timeval) : F :=
  let millis : Int :=
    wrapLong longBits (wrapLong longBits (time.tv_sec * 1000) + (Int.tdiv time.tv_usec 1000))
  (millis : F) / 1000 - t0

/-- The method `ShaderPlugin::EmitGeometry`. -/
def EmitGeometry {F : Type} : List (GLCmd F) :=
  [ GLCmd.glBegin,
    GLCmd.glTexCoord2f 0 0, GLCmd.glVertex2f (-1) (-1),
    GLCmd.glTexCoord2f 0 1, GLCmd.glVertex2f (-1) 1,
    GLCmd.glTexCoord2f 1 1, GLCmd.glVertex2f 1 1,
    GLCmd.glTexCoord2f 1 0, GLCmd.glVertex2f 1 (-1),
    GLCmd.glEnd ]

/-- The method `ShaderPlugin::InitGL`. -/
def ShaderPlugin.InitGL {F : Type} [Field F] (self : ShaderPlugin F) (ctx : GLContext)
    (vp : FFGLViewportStruct) : Outcome F :=
  if ctx.multitexture = 0 ∨ ctx.ARB_shader_objects = 0 then
    { ret := FF_FAIL, self := self, gl := [GLCmd.extensionsInit] }
  else
    let locations : List Int :=
      (List.range self.m_nInputs).map (fun ii => ctx.FindUniform ("inputTexture" ++ toString ii))
    { ret := FF_SUCCESS
      self :=
        { self with
          m_parameters :=
            self.m_parameters.map (fun p => { p with UniformLocation := ctx.FindUniform p.Name })
          m_inputTextureLocationArray := locations
          m_timeLocation := ctx.FindUniform "iGlobalTime"
          m_resolutionLocation := ctx.FindUniform "iResolution"
          m_resolution := ((vp.width : F), (vp.height : F), self.m_resolution.2.2) }
      gl :=
        [GLCmd.extensionsInit, GLCmd.SetExtensions, GLCmd.Compile, GLCmd.BindShader]
          ++ locations.map (fun l => GLCmd.glUniform1iARB l 0)
          ++ [GLCmd.UnbindShader] }

/-- The method `ShaderPlugin::DeInitGL`. -/
def ShaderPlugin.DeInitGL {F : Type} (self : ShaderPlugin F) : Outcome F :=
  { ret := FF_SUCCESS, self := self, gl := [GLCmd.FreeGLResources] }

/-- The first loop of `ProcessOpenGL`: whether one of the pointers `inputTextures[0 ..
m_nInputs - 1]` is `nullptr`. -/
def hasNullInput (nInputs : Nat) (pGL : ProcessOpenGLStruct) : Bool :=
  (List.range nInputs).any (fun ii => (pGL.inputTexture ii).isNone)

/-- The body of the second loop of `ProcessOpenGL` for slot `ii`.  The pointer was checked
by the first loop, so the `none` branch is never taken in `ProcessOpenGL`. -/
def bindInput {F : Type} (pGL : ProcessOpenGLStruct) (ii : Nat) : List (GLCmd F) :=
  match pGL.inputTexture ii with
  | some Texture =>
      [ GLCmd.glActiveTexture ii, GLCmd.glBindTexture Texture.Handle,
        GLCmd.glTexParameteri_WRAP_S_REPEAT, GLCmd.glTexParameteri_WRAP_T_REPEAT ]
  | none => []

/-- The body of the last loop of `ProcessOpenGL` for slot `ii`. -/
def unbindInput {F : Type} (ii : Nat) : List (GLCmd F) :=
  [GLCmd.glActiveTexture ii, GLCmd.glBindTexture 0]

/-- The method `ShaderPlugin::ProcessOpenGL`; `now` is what `gettimeofday` reads if
`update_time` is called and `longBits` the width of `long` used there. -/
def ShaderPlugin.ProcessOpenGL {F : Type} [Field F] (longBits : Nat) (self : ShaderPlugin F)
    (pGL : ProcessOpenGLStruct) (now : timeval) : Outcome F :=
  if pGL.numInputTextures < self.m_nInputs then
    { ret := FF_FAIL, self := self, gl := [] }
  else if hasNullInput self.m_nInputs pGL then
    { ret := FF_FAIL, self := self, gl := [] }
  else
    let m_time : F :=
      if !self.m_HostSupportsSetTime then update_time longBits self.m_startTime now else self.m_time
    { ret := FF_SUCCESS
      self := { self with m_time := m_time }
      gl :=
        [GLCmd.BindShader]
          ++ (List.range self.m_nInputs).flatMap (bindInput pGL)
          ++ self.m_parameters.map (fun p => GLCmd.glUniform1fARB p.UniformLocation p.GetScaledValue)
          ++ [GLCmd.glUniform1fARB self.m_timeLocation m_time,
              GLCmd.glUniform3fvARB self.m_resolutionLocation 3 self.m_resolution]
          ++ EmitGeometry
          ++ (List.range self.m_nInputs).flatMap unbindInput
          ++ [GLCmd.UnbindShader] }

/-- The method `ShaderPlugin::GetParameter`.  `asDWORD f` is the `DWORD` whose four bytes
hold the float `f` (the store through `(float *)&dwRet`). -/
def ShaderPlugin.GetParameter {F : Type} (asDWORD : F → Nat) (self : ShaderPlugin F)
    (dwIndex : Nat) : Nat :=
  if h : dwIndex < self.m_parameters.length then
    let p := self.m_parameters[dwIndex]
    asDWORD p.Value
  else
    FF_FAIL

/-- The method `ShaderPlugin::SetParameter`; `none` is the `NULL` argument.  `asFloat d` is
the float held in the four bytes of the `DWORD` `d` (the load through
`(float *)&NewParameterValue`). -/
def ShaderPlugin.SetParameter {F : Type} (asFloat : Nat → F) (self : ShaderPlugin F)
    (pParam : Option SetParameterStruct) : Outcome F :=
  match pParam with
  | some param =>
      if h : param.ParameterNumber < self.m_parameters.length then
        let p := self.m_parameters[param.ParameterNumber]
        { ret := FF_SUCCESS
          self :=
            { self with
              m_parameters :=
                self.m_parameters.set param.ParameterNumber
                  { p with Value := asFloat param.NewParameterValue } }
          gl := [] }
      else
        { ret := FF_FAIL, self := self, gl := [] }
  | none => { ret := FF_FAIL, self := self, gl := [] }

/-- The method `ShaderPlugin::SetTime`. -/
def ShaderPlugin.SetTime {F : Type} (self : ShaderPlugin F) (time : F) : Outcome F :=
  { ret := FF_SUCCESS
    self := { self with m_HostSupportsSetTime := true, m_time := time }
    gl := [] }

/-! ## Sequences of host calls -/

/-- One call of the host on an instance, with its arguments and, for `ProcessOpenGL` and
`InitGL`, what the clock and the GL context answer during the call. -/
inductive Call (F : Type) where
  | InitGL (ctx : GLContext) (vp : FFGLViewportStruct) : Call F
  | DeInitGL : Call F
  | ProcessOpenGL (pGL : ProcessOpenGLStruct) (now : timeval) : Call F
  | GetParameter (dwIndex : Nat) : Call F
  | SetParameter (pParam : Option SetParameterStruct) : Call F
  | SetTime (time : F) : Call F

/-- The instance after one host call. -/
def Call.apply {F : Type} [Field F] (longBits : Nat) (asFloat : Nat → F) (self : ShaderPlugin F) :
    Call F → ShaderPlugin F
  | Call.InitGL ctx vp => (self.InitGL ctx vp).self
  | Call.DeInitGL => self.DeInitGL.self
  | Call.ProcessOpenGL pGL now => (self.ProcessOpenGL longBits pGL now).self
  | Call.GetParameter _ => self
  | Call.SetParameter pParam => (self.SetParameter asFloat pParam).self
  | Call.SetTime time => (self.SetTime time).self

/-- The instance after a sequence of host calls, first call first. -/
def runCalls {F : Type} [Field F] (longBits : Nat) (asFloat : Nat → F) (self : ShaderPlugin F) :
    List (Call F) → ShaderPlugin F
  | [] => self
  | c :: rest => runCalls longBits asFloat (c.apply longBits asFloat self) rest

/-- The argument of the last `SetTime` among `calls`, or `time` when there is none. -/
def lastSetTime {F : Type} (time : F) : List (Call F) → F
  | [] => time
  | Call.SetTime t :: rest => lastSetTime t rest
  | _ :: rest => lastSetTime time rest

/-! ## Reading a trace -/

/-- The scalar float uploads of a trace, in order, as (location, value). -/
def uniform1fUploads {F : Type} : List (GLCmd F) → List (Int × F)
  | [] => []
  | GLCmd.glUniform1fARB l v :: rest => (l, v) :: uniform1fUploads rest
  | _ :: rest => uniform1fUploads rest

/-- Whether a call uploads a uniform. -/
def GLCmd.isUniformUpload {F : Type} : GLCmd F → Bool
  | GLCmd.glUniform1iARB _ _ => true
  | GLCmd.glUniform1fARB _ _ => true
  | GLCmd.glUniform3fvARB _ _ _ => true
  | _ => false

/-- Whether a call opens a draw submission (`glBegin`). -/
def GLCmd.isDraw {F : Type} : GLCmd F → Bool
  | GLCmd.glBegin => true
  | _ => false

/-- Whether a call binds or unbinds the shader program. -/
def GLCmd.isProgramBinding {F : Type} : GLCmd F → Bool
  | GLCmd.BindShader => true
  | GLCmd.UnbindShader => true
  | _ => false

/-- Whether a call touches a texture unit: selects it, binds a texture or sets a wrap
mode. -/
def GLCmd.isTextureCall {F : Type} : GLCmd F → Bool
  | GLCmd.glActiveTexture _ => true
  | GLCmd.glBindTexture _ => true
  | GLCmd.glTexParameteri_WRAP_S_REPEAT => true
  | GLCmd.glTexParameteri_WRAP_T_REPEAT => true
  | _ => false

/-! ## The 32-bit float at the host boundary -/

/-- The rational value of the IEEE-754 binary32 bit pattern `d`: sign bit 31, exponent bits
30 to 23, fraction bits 22 to 0.  Infinities and NaNs (exponent 255) have no rational value
and are sent to `0`. -/
def binary32Value (d : Nat) : ℚ :=
  let sign : ℚ := if d / 2 ^ 31 % 2 = 1 then -1 else 1
  let e : Nat := d / 2 ^ 23 % 256
  let m : Nat := d % 2 ^ 23
  if e = 255 then 0
  else if e = 0 then sign * (m : ℚ) / 2 ^ 149
  else if 150 ≤ e then sign * ((2 ^ 23 + m : Nat) : ℚ) * 2 ^ (e - 150)
  else sign * ((2 ^ 23 + m : Nat) : ℚ) / 2 ^ (150 - e)

/-- The bit pattern of the binary32 number `0.25`. -/
def bitsOfQuarter : Nat := 0x3E800000

/-- The bit pattern of the binary32 number `2.0`. -/
def bitsOfTwo : Nat := 0x40000000

/-! ## Instances used in the examples -/

/-- The descriptor table of the scenario: one parameter `brightness`, range `[0, 2]`,
initial value `1`. -/
def brightnessTable : List (Parameter ℚ) :=
  [Parameter.ctor "brightness" 0 2 1 0]

/-- The effect plugin of the scenario, as constructed. -/
def brightnessEffect : ShaderPlugin ℚ :=
  EffectPlugin brightnessTable 0

/-- A frame request with one texture, of handle `7`. -/
def oneTexture : ProcessOpenGLStruct :=
  { inputTextures := [some { Width := 640, Height := 480, Handle := 7 }] }

/-- A frame request without textures. -/
def noTexture : ProcessOpenGLStruct :=
  { inputTextures := [] }

/-- A frame request whose only texture pointer is null. -/
def nullTexture : ProcessOpenGLStruct :=
  { inputTextures := [none] }

/-- A context with both capabilities whose shader fails to compile, so that no uniform is
found. -/
def failedCompileContext : GLContext :=
  { multitexture := 1, ARB_shader_objects := 1, compileResult := 0, FindUniform := fun _ => -1 }

/-- A context with both capabilities whose shader compiles; every uniform is found at
location `3`. -/
def capableContext : GLContext :=
  { multitexture := 1, ARB_shader_objects := 1, compileResult := 1, FindUniform := fun _ => 3 }

/-- A context without multitexturing. -/
def incapableContext : GLContext :=
  { multitexture := 0, ARB_shader_objects := 1, compileResult := 0, FindUniform := fun _ => -1 }

/-- A viewport of 640 by 480. -/
def viewport640 : FFGLViewportStruct :=
  { x := 0, y := 0, width := 640, height := 480 }

/-- An instance whose floats are identified with their 32-bit patterns: one parameter,
stored pattern `0`. -/
def bitsPlugin : ShaderPlugin Nat :=
  { m_initResources := 1
    m_inputTextureLocationArray := []
    m_nInputs := 0
    m_HostSupportsSetTime := false
    m_time := 0
    m_startTime := 0
    m_timeLocation := -1
    m_resolution := (0, 0, 0)
    m_resolutionLocation := -1
    m_parameters :=
      [{ Name := "brightness", ParamType := 0, RangeMin := 0, RangeMax := 0x40000000,
         UniformLocation := -1, Value := 0x3F000000 }] }

/-! ## Round trip of the parameter scaling -/

/-- C1: for `min < max` (and any `value`, in particular `min ≤ value ≤ max`), a parameter
constructed from `(name, min, max, value, type)` has `GetScaledValue` equal to `value`,
exactly, in every ordered field. -/
theorem getScaledValue_ctor {F : Type} [LinearOrderedField F] (name : String)
    (min max value : F) (type : Int) (hlt : min < max) (_hlo : min ≤ value)
    (_hhi : value ≤ max) :
    (Parameter.ctor name min max value type).GetScaledValue = value := by
  have hne : max - min ≠ 0 := sub_ne_zero.mpr (ne_of_gt hlt)
  simp only [Parameter.ctor, Parameter.GetScaledValue]
  rw [div_mul_cancel₀ _ hne]
  ring

/-- Instance of C1 over `ℚ`: range `[0, 2]`, value `1/2`. -/
theorem getScaledValue_ctor_witness :
    (0 : ℚ) < 2 ∧ (0 : ℚ) ≤ 1 / 2 ∧ (1 / 2 : ℚ) ≤ 2 ∧
      (Parameter.ctor "brightness" (0 : ℚ) 2 (1 / 2) 0).GetScaledValue = 1 / 2 :=
  ⟨by norm_num, by norm_num, by norm_num,
    getScaledValue_ctor "brightness" 0 2 (1 / 2) 0 (by norm_num) (by norm_num) (by norm_num)⟩

/-! ## Parameter access -/

/-- C2: when reading back the four bytes of a stored float gives the 32-bit word that was
stored (`asDWORD (asFloat b) = b`), then for every instance, every index `i` below the
parameter count and every 32-bit payload `b`, `SetParameter(i, b)` returns success and a
following `GetParameter(i)` returns `b`. -/
theorem getParameter_setParameter {F : Type} (asFloat : Nat → F) (asDWORD : F → Nat)
    (hbits : ∀ b, b < 2 ^ 32 → asDWORD (asFloat b) = b)
    (self : ShaderPlugin F) (i b : Nat) (hi : i < self.m_parameters.length)
    (hb : b < 2 ^ 32) :
    (self.SetParameter asFloat
        (some { ParameterNumber := i, NewParameterValue := b })).ret = FF_SUCCESS ∧
      (self.SetParameter asFloat
        (some { ParameterNumber := i, NewParameterValue := b })).self.GetParameter asDWORD i
        = b := by
  simp [ShaderPlugin.SetParameter, ShaderPlugin.GetParameter, hi, hbits b hb]

/-- Instance of C2: the payload is the bit pattern of `0.25`. -/
theorem getParameter_setParameter_witness :
    (∀ b, b < 2 ^ 32 → id (id b) = b) ∧ 0 < bitsPlugin.m_parameters.length ∧
      bitsOfQuarter < 2 ^ 32 ∧
      (bitsPlugin.SetParameter id
        (some { ParameterNumber := 0, NewParameterValue := bitsOfQuarter })).ret = FF_SUCCESS ∧
      (bitsPlugin.SetParameter id
        (some { ParameterNumber := 0, NewParameterValue := bitsOfQuarter })).self.GetParameter
          id 0 = bitsOfQuarter :=
  ⟨fun _ _ => rfl, by decide, by decide,
    getParameter_setParameter id id (fun _ _ => rfl) bitsPlugin 0 bitsOfQuarter
      (by decide) (by decide)⟩

/-- C3: for every instance and every index `i` at or above the parameter count,
`GetParameter(i)` returns the failure code, `SetParameter(i, v)` returns the failure code
for every `v` and leaves the instance (so every name, range, normalised value and uniform
location) unchanged, and `SetParameter` with a null request fails without changing the
instance; none of them makes a GL call. -/
theorem parameter_index_out_of_range {F : Type} (asFloat : Nat → F) (asDWORD : F → Nat)
    (self : ShaderPlugin F) (i : Nat) (hi : self.m_parameters.length ≤ i) :
    self.GetParameter asDWORD i = FF_FAIL ∧
      (∀ v : Nat,
        (self.SetParameter asFloat
            (some { ParameterNumber := i, NewParameterValue := v })).ret = FF_FAIL ∧
          (self.SetParameter asFloat
            (some { ParameterNumber := i, NewParameterValue := v })).self = self ∧
          (self.SetParameter asFloat
            (some { ParameterNumber := i, NewParameterValue := v })).gl = []) ∧
      (self.SetParameter asFloat none).ret = FF_FAIL ∧
      (self.SetParameter asFloat none).self = self ∧
      (self.SetParameter asFloat none).gl = [] := by
  have h : ¬ i < self.m_parameters.length := Nat.not_lt.mpr hi
  simp [ShaderPlugin.SetParameter, ShaderPlugin.GetParameter, h]

/-- Instance of C3: index `1` on the one-parameter effect plugin. -/
theorem parameter_index_out_of_range_witness :
    brightnessEffect.m_parameters.length ≤ 1 ∧
      brightnessEffect.GetParameter (fun _ => 0) 1 = FF_FAIL ∧
      (∀ v : Nat,
        (brightnessEffect.SetParameter binary32Value
            (some { ParameterNumber := 1, NewParameterValue := v })).ret = FF_FAIL ∧
          (brightnessEffect.SetParameter binary32Value
            (some { ParameterNumber := 1, NewParameterValue := v })).self = brightnessEffect ∧
          (brightnessEffect.SetParameter binary32Value
            (some { ParameterNumber := 1, NewParameterValue := v })).gl = []) ∧
      (brightnessEffect.SetParameter binary32Value none).ret = FF_FAIL ∧
      (brightnessEffect.SetParameter binary32Value none).self = brightnessEffect ∧
      (brightnessEffect.SetParameter binary32Value none).gl = [] :=
  ⟨by decide,
    parameter_index_out_of_range binary32Value (fun _ => 0) brightnessEffect 1 (by decide)⟩

/-! ## Rejected frame requests -/

/-- The first loop finds a null pointer exactly when one of the required slots holds one. -/
theorem hasNullInput_iff (n : Nat) (pGL : ProcessOpenGLStruct) :
    hasNullInput n pGL = true ↔ ∃ ii, ii < n ∧ pGL.inputTexture ii = none := by
  simp [hasNullInput, List.any_eq_true, Option.isNone_iff_eq_none]

/-- What `ProcessOpenGL` does when one of the two checks fails. -/
theorem processOpenGL_of_invalid {F : Type} [Field F] (longBits : Nat)
    (self : ShaderPlugin F) (pGL : ProcessOpenGLStruct) (now : timeval)
    (hbad : pGL.numInputTextures < self.m_nInputs ∨
      ∃ ii, ii < self.m_nInputs ∧ pGL.inputTexture ii = none) :
    self.ProcessOpenGL longBits pGL now = { ret := FF_FAIL, self := self, gl := [] } := by
  unfold ShaderPlugin.ProcessOpenGL
  by_cases hnum : pGL.numInputTextures < self.m_nInputs
  · simp [hnum]
  · have hnull : hasNullInput self.m_nInputs pGL = true := by
      rcases hbad with h | h
      · exact absurd h hnum
      · exact (hasNullInput_iff _ _).mpr h
    simp [hnum, hnull]

/-- C4: for every instance and every frame request with fewer textures than the configured
input count, or with a null pointer among the first `m_nInputs` textures, `ProcessOpenGL`
returns failure, makes no GL call at all and leaves the instance, elapsed time included,
unchanged. -/
theorem processOpenGL_rejects {F : Type} [Field F] (longBits : Nat)
    (self : ShaderPlugin F) (pGL : ProcessOpenGLStruct) (now : timeval)
    (hbad : pGL.numInputTextures < self.m_nInputs ∨
      ∃ ii, ii < self.m_nInputs ∧ pGL.inputTexture ii = none) :
    (self.ProcessOpenGL longBits pGL now).ret = FF_FAIL ∧
      (self.ProcessOpenGL longBits pGL now).gl = [] ∧
      (self.ProcessOpenGL longBits pGL now).self = self ∧
      (self.ProcessOpenGL longBits pGL now).self.m_time = self.m_time := by
  rw [processOpenGL_of_invalid longBits self pGL now hbad]
  exact ⟨rfl, rfl, rfl, rfl⟩

/-- Instance of C4: the effect plugin given a null texture pointer. -/
theorem processOpenGL_rejects_witness :
    (nullTexture.numInputTextures < brightnessEffect.m_nInputs ∨
      ∃ ii, ii < brightnessEffect.m_nInputs ∧ nullTexture.inputTexture ii = none) ∧
      (brightnessEffect.ProcessOpenGL 64 nullTexture ⟨5, 0⟩).ret = FF_FAIL ∧
      (brightnessEffect.ProcessOpenGL 64 nullTexture ⟨5, 0⟩).gl = [] ∧
      (brightnessEffect.ProcessOpenGL 64 nullTexture ⟨5, 0⟩).self = brightnessEffect ∧
      (brightnessEffect.ProcessOpenGL 64 nullTexture ⟨5, 0⟩).self.m_time = brightnessEffect.m_time :=
  ⟨Or.inr ⟨0, by decide, rfl⟩,
    processOpenGL_rejects 64 brightnessEffect nullTexture ⟨5, 0⟩ (Or.inr ⟨0, by decide, rfl⟩)⟩

/-! ## Shape of an accepted frame -/

/-- The two codes differ. -/
theorem FF_SUCCESS_ne_FF_FAIL : FF_SUCCESS ≠ FF_FAIL := by decide

/-- What `ProcessOpenGL` does once both checks have passed. -/
theorem processOpenGL_of_valid {F : Type} [Field F] (longBits : Nat)
    (self : ShaderPlugin F) (pGL : ProcessOpenGLStruct) (now : timeval)
    (hnum : ¬ pGL.numInputTextures < self.m_nInputs)
    (hnull : hasNullInput self.m_nInputs pGL = false) :
    (self.ProcessOpenGL longBits pGL now).ret = FF_SUCCESS ∧
      (self.ProcessOpenGL longBits pGL now).self =
        { self with
          m_time :=
            if !self.m_HostSupportsSetTime then update_time longBits self.m_startTime now
            else self.m_time } ∧
      (self.ProcessOpenGL longBits pGL now).gl =
        [GLCmd.BindShader]
          ++ (List.range self.m_nInputs).flatMap (bindInput pGL)
          ++ self.m_parameters.map
              (fun p => GLCmd.glUniform1fARB p.UniformLocation p.GetScaledValue)
          ++ [GLCmd.glUniform1fARB self.m_timeLocation
                (if !self.m_HostSupportsSetTime then update_time longBits self.m_startTime now
                 else self.m_time),
              GLCmd.glUniform3fvARB self.m_resolutionLocation 3 self.m_resolution]
          ++ EmitGeometry
          ++ (List.range self.m_nInputs).flatMap unbindInput
          ++ [GLCmd.UnbindShader] := by
  unfold ShaderPlugin.ProcessOpenGL
  simp [hnum, hnull]

/-- A call of `ProcessOpenGL` that returns success passed both checks. -/
theorem valid_of_processOpenGL_success {F : Type} [Field F] (longBits : Nat)
    (self : ShaderPlugin F) (pGL : ProcessOpenGLStruct) (now : timeval)
    (hret : (self.ProcessOpenGL longBits pGL now).ret = FF_SUCCESS) :
    ¬ pGL.numInputTextures < self.m_nInputs ∧ hasNullInput self.m_nInputs pGL = false := by
  unfold ShaderPlugin.ProcessOpenGL at hret
  by_cases hnum : pGL.numInputTextures < self.m_nInputs
  · simp [hnum] at hret
    exact absurd hret.symm FF_SUCCESS_ne_FF_FAIL
  · by_cases hnull : hasNullInput self.m_nInputs pGL = true
    · simp [hnum, hnull] at hret
      exact absurd hret.symm FF_SUCCESS_ne_FF_FAIL
    · exact ⟨hnum, by simpa using hnull⟩

/-- Scalar uploads of a concatenation. -/
theorem uniform1fUploads_append {F : Type} (xs ys : List (GLCmd F)) :
    uniform1fUploads (xs ++ ys) = uniform1fUploads xs ++ uniform1fUploads ys := by
  induction xs with
  | nil => rfl
  | cons c rest ih => cases c <;> simp [uniform1fUploads, ih]

/-- A trace without uniform uploads has no scalar upload. -/
theorem uniform1fUploads_eq_nil {F : Type} (xs : List (GLCmd F))
    (h : ∀ c ∈ xs, c.isUniformUpload = false) : uniform1fUploads xs = [] := by
  induction xs with
  | nil => rfl
  | cons c rest ih =>
    have hc := h c (List.mem_cons_self _ _)
    have hrest := ih (fun d hd => h d (List.mem_cons_of_mem _ hd))
    cases c <;> simp_all [uniform1fUploads, GLCmd.isUniformUpload]

/-- The parameter loop uploads one scalar per parameter, in order. -/
theorem uniform1fUploads_parameters {F : Type} [Field F] (ps : List (Parameter F)) :
    uniform1fUploads
        (ps.map (fun p => GLCmd.glUniform1fARB p.UniformLocation p.GetScaledValue)) =
      ps.map (fun p => (p.UniformLocation, p.GetScaledValue)) := by
  induction ps with
  | nil => rfl
  | cons p rest ih => simp [uniform1fUploads, ih]

/-- The texture set-up loop only makes texture calls. -/
theorem bindInputs_isTextureCall {F : Type} (pGL : ProcessOpenGLStruct) (n : Nat) :
    ∀ c ∈ (List.range n).flatMap (bindInput (F := F) pGL), c.isTextureCall = true := by
  intro c hc
  rcases List.mem_flatMap.mp hc with ⟨ii, _, hii⟩
  unfold bindInput at hii
  cases htex : pGL.inputTexture ii with
  | none => simp [htex] at hii
  | some Texture =>
    simp [htex] at hii
    rcases hii with h | h | h | h <;> subst h <;> rfl

/-- The texture release loop only selects units and binds texture `0`. -/
theorem unbindInputs_mem {F : Type} (n : Nat) :
    ∀ c ∈ (List.range n).flatMap (unbindInput (F := F)),
      (∃ ii, ii < n ∧ c = GLCmd.glActiveTexture ii) ∨ c = GLCmd.glBindTexture 0 := by
  intro c hc
  rcases List.mem_flatMap.mp hc with ⟨ii, hmem, hii⟩
  simp [unbindInput] at hii
  rcases hii with h | h
  · exact Or.inl ⟨ii, List.mem_range.mp hmem, h⟩
  · exact Or.inr h

/-- The scalar uploads of an accepted frame: the parameters, then the time. -/
theorem uniform1fUploads_processOpenGL {F : Type} [Field F] (longBits : Nat)
    (self : ShaderPlugin F) (pGL : ProcessOpenGLStruct) (now : timeval)
    (hret : (self.ProcessOpenGL longBits pGL now).ret = FF_SUCCESS) :
    uniform1fUploads (self.ProcessOpenGL longBits pGL now).gl =
      self.m_parameters.map (fun p => (p.UniformLocation, p.GetScaledValue))
        ++ [(self.m_timeLocation, (self.ProcessOpenGL longBits pGL now).self.m_time)] := by
  obtain ⟨hnum, hnull⟩ := valid_of_processOpenGL_success longBits self pGL now hret
  obtain ⟨_, hself, hgl⟩ := processOpenGL_of_valid longBits self pGL now hnum hnull
  have hbind : uniform1fUploads ((List.range self.m_nInputs).flatMap (bindInput (F := F) pGL))
      = [] := by
    apply uniform1fUploads_eq_nil
    intro c hc
    have := bindInputs_isTextureCall pGL self.m_nInputs c hc
    cases c <;> simp_all [GLCmd.isTextureCall, GLCmd.isUniformUpload]
  have hunbind : uniform1fUploads ((List.range self.m_nInputs).flatMap (unbindInput (F := F)))
      = [] := by
    apply uniform1fUploads_eq_nil
    intro c hc
    rcases unbindInputs_mem self.m_nInputs c hc with ⟨ii, _, h⟩ | h <;> subst h <;> rfl
  rw [hgl, hself]
  simp only [uniform1fUploads_append, hbind, hunbind, uniform1fUploads_parameters]
  simp [uniform1fUploads, EmitGeometry]

/-! ## Lifecycle -/

/-- C5, refuted as stated: a frame with a valid texture is accepted, and the program and
the texture are bound, (1) on an instance that was never initialised, (2) after an `InitGL`
that returned failure and (3) after `DeInitGL`. -/
theorem processOpenGL_accepted_when_not_ready :
    ((brightnessEffect.ProcessOpenGL 64 oneTexture ⟨5, 0⟩).ret = FF_SUCCESS ∧
        GLCmd.BindShader ∈ (brightnessEffect.ProcessOpenGL 64 oneTexture ⟨5, 0⟩).gl ∧
        GLCmd.glBindTexture 7 ∈ (brightnessEffect.ProcessOpenGL 64 oneTexture ⟨5, 0⟩).gl) ∧
      ((brightnessEffect.InitGL incapableContext viewport640).ret = FF_FAIL ∧
        ((brightnessEffect.InitGL incapableContext viewport640).self.ProcessOpenGL 64
          oneTexture ⟨5, 0⟩).ret = FF_SUCCESS ∧
        GLCmd.BindShader ∈
          ((brightnessEffect.InitGL incapableContext viewport640).self.ProcessOpenGL 64
            oneTexture ⟨5, 0⟩).gl) ∧
      ((brightnessEffect.InitGL capableContext viewport640).ret = FF_SUCCESS ∧
        (brightnessEffect.InitGL capableContext viewport640).self.DeInitGL.ret = FF_SUCCESS ∧
        ((brightnessEffect.InitGL capableContext viewport640).self.DeInitGL.self.ProcessOpenGL 64
          oneTexture ⟨5, 0⟩).ret = FF_SUCCESS ∧
        GLCmd.BindShader ∈
          ((brightnessEffect.InitGL capableContext viewport640).self.DeInitGL.self.ProcessOpenGL 64
            oneTexture ⟨5, 0⟩).gl) := by
  refine ⟨⟨?_, ?_, ?_⟩, ⟨?_, ?_, ?_⟩, ⟨?_, ?_, ?_, ?_⟩⟩ <;>
    simp [ShaderPlugin.ProcessOpenGL, ShaderPlugin.InitGL, ShaderPlugin.DeInitGL,
      brightnessEffect, EffectPlugin, ShaderPlugin.ctor, oneTexture, incapableContext,
      capableContext, hasNullInput, ProcessOpenGLStruct.numInputTextures,
      ProcessOpenGLStruct.inputTexture, bindInput, List.range, List.range.loop]

/-- C5, amended: `ProcessOpenGL` does not look at the lifecycle.  After any sequence of
earlier host calls on any instance (whatever `InitGL` returned, with or without `DeInitGL`),
it returns failure exactly when the request has fewer textures than `m_nInputs` or a null
pointer among the first `m_nInputs`, and then makes no GL call; in every other case it
returns success and its first GL call binds the program. -/
theorem processOpenGL_ignores_lifecycle {F : Type} [Field F] (longBits : Nat)
    (asFloat : Nat → F)
    (self : ShaderPlugin F) (calls : List (Call F)) (pGL : ProcessOpenGLStruct)
    (now : timeval) :
    (((runCalls longBits asFloat self calls).ProcessOpenGL longBits pGL now).ret = FF_FAIL ↔
        (pGL.numInputTextures < (runCalls longBits asFloat self calls).m_nInputs ∨
          ∃ ii, ii < (runCalls longBits asFloat self calls).m_nInputs ∧ pGL.inputTexture ii = none)) ∧
      (((runCalls longBits asFloat self calls).ProcessOpenGL longBits pGL now).ret = FF_FAIL →
        ((runCalls longBits asFloat self calls).ProcessOpenGL longBits pGL now).gl = []) ∧
      (((runCalls longBits asFloat self calls).ProcessOpenGL longBits pGL now).ret ≠ FF_FAIL →
        ((runCalls longBits asFloat self calls).ProcessOpenGL longBits pGL now).ret = FF_SUCCESS ∧
          ((runCalls longBits asFloat self calls).ProcessOpenGL longBits pGL now).gl.head? =
            some GLCmd.BindShader) := by
  generalize runCalls longBits asFloat self calls = s
  by_cases hbad : pGL.numInputTextures < s.m_nInputs ∨
      ∃ ii, ii < s.m_nInputs ∧ pGL.inputTexture ii = none
  · have hout := processOpenGL_of_invalid longBits s pGL now hbad
    have hret : (s.ProcessOpenGL longBits pGL now).ret = FF_FAIL := by rw [hout]
    have hgl : (s.ProcessOpenGL longBits pGL now).gl = [] := by rw [hout]
    exact ⟨⟨fun _ => hbad, fun _ => hret⟩, fun _ => hgl, fun h => absurd hret h⟩
  · have hnum : ¬ pGL.numInputTextures < s.m_nInputs := fun h => hbad (Or.inl h)
    have hnull : hasNullInput s.m_nInputs pGL = false := by
      cases h : hasNullInput s.m_nInputs pGL with
      | false => rfl
      | true => exact absurd (Or.inr ((hasNullInput_iff _ _).mp h)) hbad
    obtain ⟨hret, _, hgl⟩ := processOpenGL_of_valid longBits s pGL now hnum hnull
    have hne : (s.ProcessOpenGL longBits pGL now).ret ≠ FF_FAIL := by
      rw [hret]; exact FF_SUCCESS_ne_FF_FAIL
    refine ⟨⟨fun h => absurd h hne, fun h => absurd h hbad⟩, fun h => absurd h hne, fun _ => ?_⟩
    refine ⟨hret, ?_⟩
    rw [hgl]
    simp

/-- C6, refuted as stated: with both capabilities present and a shader that fails to
compile, `InitGL` returns success. -/
theorem initGL_success_after_failed_compile :
    failedCompileContext.compileResult = 0 ∧
      (brightnessEffect.InitGL failedCompileContext viewport640).ret = FF_SUCCESS := by
  constructor
  · rfl
  · simp [ShaderPlugin.InitGL, failedCompileContext]

/-- C6, amended: `InitGL` returns the failure code exactly when multitexturing or
shader-object support is absent and success otherwise; what `Compile` returned changes
nothing of the outcome. -/
theorem initGL_fails_iff_capability_absent {F : Type} [Field F] (self : ShaderPlugin F)
    (ctx : GLContext) (vp : FFGLViewportStruct) :
    ((self.InitGL ctx vp).ret = FF_FAIL ↔
        (ctx.multitexture = 0 ∨ ctx.ARB_shader_objects = 0)) ∧
      ((self.InitGL ctx vp).ret ≠ FF_FAIL → (self.InitGL ctx vp).ret = FF_SUCCESS) ∧
      (∀ r : Nat,
        (self.InitGL { ctx with compileResult := r } vp).ret = (self.InitGL ctx vp).ret ∧
          (self.InitGL { ctx with compileResult := r } vp).self = (self.InitGL ctx vp).self ∧
          (self.InitGL { ctx with compileResult := r } vp).gl = (self.InitGL ctx vp).gl) := by
  unfold ShaderPlugin.InitGL
  by_cases hcap : ctx.multitexture = 0 ∨ ctx.ARB_shader_objects = 0
  · simp [hcap]
  · have h := FF_SUCCESS_ne_FF_FAIL
    simp [hcap, h]

/-! ## Host-driven time -/

/-- In host-driven mode no call other than `SetTime` changes the mode or the time. -/
theorem apply_keeps_host_time {F : Type} [Field F] (longBits : Nat) (asFloat : Nat → F)
    (self : ShaderPlugin F) (c : Call F) (t : F)
    (hmode : self.m_HostSupportsSetTime = true) (htime : self.m_time = t) :
    (c.apply longBits asFloat self).m_HostSupportsSetTime = true ∧
      (c.apply longBits asFloat self).m_time = lastSetTime t [c] := by
  cases c with
  | InitGL ctx vp =>
    simp only [Call.apply, lastSetTime, ShaderPlugin.InitGL]
    split <;> exact ⟨hmode, htime⟩
  | DeInitGL => exact ⟨hmode, htime⟩
  | ProcessOpenGL pGL now =>
    simp only [Call.apply, lastSetTime, ShaderPlugin.ProcessOpenGL]
    split
    · exact ⟨hmode, htime⟩
    · split
      · exact ⟨hmode, htime⟩
      · simp [hmode, htime]
  | GetParameter i => exact ⟨hmode, htime⟩
  | SetParameter pParam =>
    simp only [Call.apply, lastSetTime, ShaderPlugin.SetParameter]
    split
    · split <;> exact ⟨hmode, htime⟩
    · exact ⟨hmode, htime⟩
  | SetTime t' => exact ⟨rfl, rfl⟩

/-- The last host time of a sequence that starts with the call `c`. -/
theorem lastSetTime_cons {F : Type} (t : F) (c : Call F) (rest : List (Call F)) :
    lastSetTime t (c :: rest) = lastSetTime (lastSetTime t [c]) rest := by
  cases c <;> rfl

/-- In host-driven mode a sequence of calls leaves the mode and has as time the argument of
the last `SetTime`. -/
theorem runCalls_keeps_host_time {F : Type} [Field F] (longBits : Nat)
    (asFloat : Nat → F)
    (calls : List (Call F)) :
    ∀ (self : ShaderPlugin F) (t : F), self.m_HostSupportsSetTime = true → self.m_time = t →
      (runCalls longBits asFloat self calls).m_HostSupportsSetTime = true ∧
        (runCalls longBits asFloat self calls).m_time = lastSetTime t calls := by
  induction calls with
  | nil => intro self t hmode htime; exact ⟨hmode, htime⟩
  | cons c rest ih =>
    intro self t hmode htime
    obtain ⟨h1, h2⟩ := apply_keeps_host_time longBits asFloat self c t hmode htime
    rw [lastSetTime_cons]
    exact ih (c.apply longBits asFloat self) (lastSetTime t [c]) h1 h2

/-- C7: `SetTime` returns success, and after `SetTime(t)` and any later sequence of host
calls the instance is in host-driven mode and its elapsed time is the argument of the most
recent `SetTime` (`t` when the sequence has none); a `ProcessOpenGL` at that point leaves
mode and time as they are whatever the clock reads, and when it succeeds its last scalar
upload, the one of `iGlobalTime`, carries that host value. -/
theorem setTime_permanent {F : Type} [Field F] (longBits : Nat) (asFloat : Nat → F)
    (self : ShaderPlugin F)
    (t : F) (calls : List (Call F)) (pGL : ProcessOpenGLStruct) (now : timeval) :
    (self.SetTime t).ret = FF_SUCCESS ∧
      (runCalls longBits asFloat (self.SetTime t).self calls).m_HostSupportsSetTime = true ∧
      (runCalls longBits asFloat (self.SetTime t).self calls).m_time = lastSetTime t calls ∧
      ((runCalls longBits asFloat (self.SetTime t).self calls).ProcessOpenGL longBits pGL
        now).self.m_HostSupportsSetTime = true ∧
      ((runCalls longBits asFloat (self.SetTime t).self calls).ProcessOpenGL longBits pGL now).self.m_time =
        lastSetTime t calls ∧
      (((runCalls longBits asFloat (self.SetTime t).self calls).ProcessOpenGL longBits pGL now).ret = FF_SUCCESS →
        (uniform1fUploads
            ((runCalls longBits asFloat (self.SetTime t).self calls).ProcessOpenGL longBits pGL now).gl).getLast? =
          some ((runCalls longBits asFloat (self.SetTime t).self calls).m_timeLocation,
            lastSetTime t calls)) := by
  obtain ⟨hmode, htime⟩ :=
    runCalls_keeps_host_time longBits asFloat calls (self.SetTime t).self t rfl rfl
  generalize runCalls longBits asFloat (self.SetTime t).self calls = s at hmode htime
  obtain ⟨hmode', htime'⟩ :=
    apply_keeps_host_time longBits asFloat s (Call.ProcessOpenGL pGL now) (lastSetTime t calls)
      hmode htime
  simp only [Call.apply, lastSetTime] at hmode' htime'
  refine ⟨rfl, hmode, htime, hmode', htime', fun hret => ?_⟩
  rw [uniform1fUploads_processOpenGL longBits s pGL now hret, htime']
  simp

/-! ## Parameter uploads -/

/-- C8: in every `ProcessOpenGL` call that succeeds, the scalar float uploads are, in
order, one per parameter in descriptor order, to that parameter's uniform location and with
value `RangeMin + Value * (RangeMax - RangeMin)` whatever `Value` is (no clamping), followed
by the single upload of the time. -/
theorem processOpenGL_uploads_scaled_values {F : Type} [Field F] (longBits : Nat)
    (self : ShaderPlugin F) (pGL : ProcessOpenGLStruct) (now : timeval)
    (hret : (self.ProcessOpenGL longBits pGL now).ret = FF_SUCCESS) :
    uniform1fUploads (self.ProcessOpenGL longBits pGL now).gl =
      self.m_parameters.map
          (fun p => (p.UniformLocation, p.RangeMin + p.Value * (p.RangeMax - p.RangeMin)))
        ++ [(self.m_timeLocation, (self.ProcessOpenGL longBits pGL now).self.m_time)] :=
  uniform1fUploads_processOpenGL longBits self pGL now hret

/-- The scenario before any `SetParameter`: `brightness` is uploaded as `1`. -/
theorem brightness_initial_upload :
    (brightnessEffect.ProcessOpenGL 64 oneTexture ⟨5, 0⟩).ret = FF_SUCCESS ∧
      uniform1fUploads (brightnessEffect.ProcessOpenGL 64 oneTexture ⟨5, 0⟩).gl =
        [(-1, 1), (-1, 5)] := by
  have hret : (brightnessEffect.ProcessOpenGL 64 oneTexture ⟨5, 0⟩).ret = FF_SUCCESS := by
    simp [ShaderPlugin.ProcessOpenGL, brightnessEffect, EffectPlugin, ShaderPlugin.ctor,
      oneTexture, hasNullInput, ProcessOpenGLStruct.numInputTextures,
      ProcessOpenGLStruct.inputTexture, List.range, List.range.loop]
  refine ⟨hret, ?_⟩
  rw [uniform1fUploads_processOpenGL _ _ _ _ hret]
  simp [ShaderPlugin.ProcessOpenGL, brightnessEffect, EffectPlugin, ShaderPlugin.ctor,
    oneTexture, hasNullInput, ProcessOpenGLStruct.numInputTextures,
    ProcessOpenGLStruct.inputTexture, List.range, List.range.loop, brightnessTable,
    Parameter.ctor, Parameter.GetScaledValue, update_time, wrapLong, Int.tdiv]
  norm_num

/-- The bit pattern `0x3E800000` is the float `0.25`. -/
theorem binary32Value_bitsOfQuarter : binary32Value bitsOfQuarter = 1 / 4 := by
  norm_num [binary32Value, bitsOfQuarter]

/-- Instance of C8, the scenario after `SetParameter(0, bits of 0.25)`: the call succeeds
and `brightness` is uploaded as `0.5`, followed by the time. -/
theorem processOpenGL_uploads_scaled_values_witness :
    ((brightnessEffect.SetParameter binary32Value
        (some { ParameterNumber := 0, NewParameterValue := bitsOfQuarter })).self.ProcessOpenGL 64
          oneTexture ⟨5, 0⟩).ret = FF_SUCCESS ∧
      uniform1fUploads
        ((brightnessEffect.SetParameter binary32Value
          (some { ParameterNumber := 0, NewParameterValue := bitsOfQuarter })).self.ProcessOpenGL 64
            oneTexture ⟨5, 0⟩).gl = [(-1, 1 / 2), (-1, 5)] := by
  have hret : ((brightnessEffect.SetParameter binary32Value
      (some { ParameterNumber := 0, NewParameterValue := bitsOfQuarter })).self.ProcessOpenGL 64
        oneTexture ⟨5, 0⟩).ret = FF_SUCCESS := by
    simp [ShaderPlugin.ProcessOpenGL, ShaderPlugin.SetParameter, brightnessEffect, EffectPlugin,
      ShaderPlugin.ctor, oneTexture, hasNullInput, ProcessOpenGLStruct.numInputTextures,
      ProcessOpenGLStruct.inputTexture, List.range, List.range.loop, brightnessTable]
  refine ⟨hret, ?_⟩
  rw [processOpenGL_uploads_scaled_values _ _ _ _ hret]
  simp [ShaderPlugin.ProcessOpenGL, ShaderPlugin.SetParameter, brightnessEffect, EffectPlugin,
    ShaderPlugin.ctor, oneTexture, hasNullInput, ProcessOpenGLStruct.numInputTextures,
    ProcessOpenGLStruct.inputTexture, List.range, List.range.loop, brightnessTable,
    Parameter.ctor, update_time, wrapLong, Int.tdiv, binary32Value_bitsOfQuarter]
  norm_num

/-- The bit pattern `0x40000000` is the float `2.0`. -/
theorem binary32Value_bitsOfTwo : binary32Value bitsOfTwo = 2 := by
  norm_num [binary32Value, bitsOfTwo]

/-- A normalised value outside `[0, 1]` is scaled like any other: after
`SetParameter(0, bits of 2.0)` the parameter `brightness` of range `[0, 2]` is uploaded as
`4`. -/
theorem brightness_unclamped_upload :
    uniform1fUploads
        ((brightnessEffect.SetParameter binary32Value
          (some { ParameterNumber := 0, NewParameterValue := bitsOfTwo })).self.ProcessOpenGL 64
            oneTexture ⟨5, 0⟩).gl = [(-1, 4), (-1, 5)] := by
  have hret : ((brightnessEffect.SetParameter binary32Value
      (some { ParameterNumber := 0, NewParameterValue := bitsOfTwo })).self.ProcessOpenGL 64
        oneTexture ⟨5, 0⟩).ret = FF_SUCCESS := by
    simp [ShaderPlugin.ProcessOpenGL, ShaderPlugin.SetParameter, brightnessEffect, EffectPlugin,
      ShaderPlugin.ctor, oneTexture, hasNullInput, ProcessOpenGLStruct.numInputTextures,
      ProcessOpenGLStruct.inputTexture, List.range, List.range.loop, brightnessTable]
  rw [uniform1fUploads_processOpenGL _ _ _ _ hret]
  simp [ShaderPlugin.ProcessOpenGL, ShaderPlugin.SetParameter, brightnessEffect, EffectPlugin,
    ShaderPlugin.ctor, oneTexture, hasNullInput, ProcessOpenGLStruct.numInputTextures,
    ProcessOpenGLStruct.inputTexture, List.range, List.range.loop, brightnessTable,
    Parameter.ctor, Parameter.GetScaledValue, update_time, wrapLong, Int.tdiv,
    binary32Value_bitsOfTwo]
  norm_num

/-! ## Self-driven time -/

/-- With a 64-bit `long`, a clock reading of less than `2 ^ 53` seconds overflows neither the
product nor the sum of `update_time`. -/
theorem fitsLong_64_of_lt (r : timeval) (hs : 0 ≤ r.tv_sec) (hs' : r.tv_sec < 2 ^ 53)
    (h : 0 ≤ r.tv_usec) (h' : r.tv_usec < 1000000) :
    fitsLong 64 (r.tv_sec * 1000) ∧
      fitsLong 64 (r.tv_sec * 1000 + Int.tdiv r.tv_usec 1000) := by
  unfold fitsLong
  rw [Int.tdiv_eq_ediv h (by norm_num)]
  norm_num at hs' ⊢
  omega

/-- The calls a loop makes for one of its slots lie, together and in order, in the calls
of the whole loop. -/
theorem loop_body_within {F : Type} (body : Nat → List (GLCmd F)) (n ii : Nat) (hii : ii < n) :
    body ii <:+: (List.range n).flatMap body := by
  rw [List.flatMap_def]
  exact List.infix_of_mem_flatten (List.mem_map.mpr ⟨ii, List.mem_range.mpr hii, rfl⟩)

/-- A texture call is neither a draw, nor a program binding, nor a uniform upload. -/
theorem isTextureCall_exclusive {F : Type} (c : GLCmd F) (h : c.isTextureCall = true) :
    c.isDraw = false ∧ c.isProgramBinding = false ∧ c.isUniformUpload = false := by
  cases c <;> first | exact ⟨rfl, rfl, rfl⟩ | exact Bool.noConfusion h

/-- The texture release loop only makes texture calls. -/
theorem unbindInputs_isTextureCall {F : Type} (n : Nat) :
    ∀ c ∈ (List.range n).flatMap (unbindInput (F := F)), c.isTextureCall = true := by
  intro c hc
  rcases unbindInputs_mem n c hc with ⟨ii, _, h⟩ | h <;> subst h <;> rfl

/-- A kind of call that no element of a trace has is counted zero times in it. -/
theorem countP_eq_zero_of_forall {F : Type} (q : GLCmd F → Bool) (xs : List (GLCmd F))
    (h : ∀ c ∈ xs, q c = false) : xs.countP q = 0 := by
  rw [List.countP_eq_zero]
  intro c hc
  simp [h c hc]

/-- An accepted frame has one draw submission and two program bindings (the bind and the
unbind). -/
theorem processOpenGL_counts {F : Type} [Field F] (longBits : Nat)
    (self : ShaderPlugin F) (pGL : ProcessOpenGLStruct) (now : timeval)
    (hnum : ¬ pGL.numInputTextures < self.m_nInputs)
    (hnull : hasNullInput self.m_nInputs pGL = false) :
    (self.ProcessOpenGL longBits pGL now).gl.countP GLCmd.isDraw = 1 ∧
      (self.ProcessOpenGL longBits pGL now).gl.countP GLCmd.isProgramBinding = 2 := by
  obtain ⟨_, _, hgl⟩ := processOpenGL_of_valid longBits self pGL now hnum hnull
  have hb := bindInputs_isTextureCall (F := F) pGL self.m_nInputs
  have hu := unbindInputs_isTextureCall (F := F) self.m_nInputs
  have hp : ∀ c ∈ self.m_parameters.map
      (fun p => GLCmd.glUniform1fARB p.UniformLocation p.GetScaledValue),
      c.isDraw = false ∧ c.isProgramBinding = false := by
    intro c hc
    obtain ⟨p, _, hp⟩ := List.mem_map.mp hc
    subst hp
    exact ⟨rfl, rfl⟩
  have b1 := countP_eq_zero_of_forall GLCmd.isDraw _
    (fun c hc => (isTextureCall_exclusive c (hb c hc)).1)
  have b2 := countP_eq_zero_of_forall GLCmd.isProgramBinding _
    (fun c hc => (isTextureCall_exclusive c (hb c hc)).2.1)
  have u1 := countP_eq_zero_of_forall GLCmd.isDraw _
    (fun c hc => (isTextureCall_exclusive c (hu c hc)).1)
  have u2 := countP_eq_zero_of_forall GLCmd.isProgramBinding _
    (fun c hc => (isTextureCall_exclusive c (hu c hc)).2.1)
  have p1 := countP_eq_zero_of_forall GLCmd.isDraw _ (fun c hc => (hp c hc).1)
  have p2 := countP_eq_zero_of_forall GLCmd.isProgramBinding _ (fun c hc => (hp c hc).2)
  rw [hgl]
  constructor
  · simp only [List.countP_append, b1, u1, p1]
    rfl
  · simp only [List.countP_append, b2, u2, p2]
    rfl

/-- C10: for every frame request with at least `m_nInputs` textures whose first `m_nInputs`
pointers are non-null, `ProcessOpenGL` returns success and its GL calls are, in order: the
program bind; a set-up part; the quad of `EmitGeometry`; a release part; the program
unbind.  The set-up part holds only texture calls and uniform uploads, among them every
parameter upload, the time upload, the resolution upload and, for each slot below
`m_nInputs`, the unit selection, the bind of that slot's texture and the two repeat-wrap
settings.  There is exactly one draw submission and the program is bound or unbound only by
the first and the last call.  No uniform upload lies at or after the draw.  The release part
only selects units and binds texture `0`, and does so for each slot below `m_nInputs`. -/
theorem processOpenGL_command_order {F : Type} [Field F] (longBits : Nat)
    (self : ShaderPlugin F) (pGL : ProcessOpenGLStruct) (now : timeval)
    (hnum : self.m_nInputs ≤ pGL.numInputTextures)
    (hnn : ∀ ii, ii < self.m_nInputs → pGL.inputTexture ii ≠ none) :
    (self.ProcessOpenGL longBits pGL now).ret = FF_SUCCESS ∧
      ∃ setup release : List (GLCmd F),
        (self.ProcessOpenGL longBits pGL now).gl =
            [GLCmd.BindShader] ++ setup ++ EmitGeometry ++ release ++ [GLCmd.UnbindShader] ∧
          (∀ c ∈ setup, c.isTextureCall = true ∨ c.isUniformUpload = true) ∧
          (∀ p ∈ self.m_parameters,
            GLCmd.glUniform1fARB p.UniformLocation p.GetScaledValue ∈ setup) ∧
          GLCmd.glUniform1fARB self.m_timeLocation (self.ProcessOpenGL longBits pGL now).self.m_time
            ∈ setup ∧
          GLCmd.glUniform3fvARB self.m_resolutionLocation 3 self.m_resolution ∈ setup ∧
          (∀ ii, ii < self.m_nInputs → ∃ Texture, pGL.inputTexture ii = some Texture ∧
            [GLCmd.glActiveTexture ii, GLCmd.glBindTexture Texture.Handle,
              GLCmd.glTexParameteri_WRAP_S_REPEAT, GLCmd.glTexParameteri_WRAP_T_REPEAT]
              <:+: setup) ∧
          (self.ProcessOpenGL longBits pGL now).gl.countP GLCmd.isDraw = 1 ∧
          (self.ProcessOpenGL longBits pGL now).gl.countP GLCmd.isProgramBinding = 2 ∧
          (∀ c ∈ EmitGeometry ++ release ++ [GLCmd.UnbindShader], c.isUniformUpload = false) ∧
          (∀ c ∈ release,
            (∃ ii, ii < self.m_nInputs ∧ c = GLCmd.glActiveTexture ii) ∨
              c = GLCmd.glBindTexture 0) ∧
          (∀ ii, ii < self.m_nInputs →
            [GLCmd.glActiveTexture ii, GLCmd.glBindTexture 0] <:+: release) := by
  have hnum' : ¬ pGL.numInputTextures < self.m_nInputs := Nat.not_lt.mpr hnum
  have hnull : hasNullInput self.m_nInputs pGL = false := by
    cases h : hasNullInput self.m_nInputs pGL with
    | false => rfl
    | true =>
      obtain ⟨ii, hii, hnone⟩ := (hasNullInput_iff _ _).mp h
      exact absurd hnone (hnn ii hii)
  obtain ⟨hret, hself, hgl⟩ := processOpenGL_of_valid longBits self pGL now hnum' hnull
  have hsetupTex := bindInputs_isTextureCall (F := F) pGL self.m_nInputs
  have hrelease := unbindInputs_mem (F := F) self.m_nInputs
  refine ⟨hret,
    (List.range self.m_nInputs).flatMap (bindInput pGL)
      ++ self.m_parameters.map
          (fun p => GLCmd.glUniform1fARB p.UniformLocation p.GetScaledValue)
      ++ [GLCmd.glUniform1fARB self.m_timeLocation
            (if !self.m_HostSupportsSetTime then update_time longBits self.m_startTime now
             else self.m_time),
          GLCmd.glUniform3fvARB self.m_resolutionLocation 3 self.m_resolution],
    (List.range self.m_nInputs).flatMap unbindInput, ?_, ?_, ?_, ?_, ?_, ?_, ?_, ?_, ?_, ?_, ?_⟩
  · rw [hgl]; simp only [List.append_assoc]
  · intro c hc
    simp only [List.mem_append, List.mem_map, List.mem_cons, List.mem_singleton,
      List.not_mem_nil, or_false] at hc
    rcases hc with (hc | ⟨p, _, hp⟩) | hc | hc
    · exact Or.inl (hsetupTex c hc)
    · subst hp; exact Or.inr rfl
    · subst hc; exact Or.inr rfl
    · subst hc; exact Or.inr rfl
  · intro p hp
    simp only [List.mem_append, List.mem_map]
    exact Or.inl (Or.inr ⟨p, hp, rfl⟩)
  · rw [hself]; simp
  · simp
  · intro ii hii
    cases htex : pGL.inputTexture ii with
    | none => exact absurd htex (hnn ii hii)
    | some Texture =>
      refine ⟨Texture, rfl, ?_⟩
      have hbody : bindInput (F := F) pGL ii =
          [GLCmd.glActiveTexture ii, GLCmd.glBindTexture Texture.Handle,
            GLCmd.glTexParameteri_WRAP_S_REPEAT, GLCmd.glTexParameteri_WRAP_T_REPEAT] := by
        simp [bindInput, htex]
      rw [← hbody, List.append_assoc]
      exact (loop_body_within (bindInput pGL) self.m_nInputs ii hii).trans
        (List.infix_append' [] _ _)
  · exact (processOpenGL_counts longBits self pGL now hnum' hnull).1
  · exact (processOpenGL_counts longBits self pGL now hnum' hnull).2
  · intro c hc
    simp only [List.mem_append, List.mem_singleton] at hc
    rcases hc with (hc | hc) | hc
    · simp [EmitGeometry] at hc
      rcases hc with h | h | h | h | h | h | h | h | h | h <;> subst h <;> rfl
    · rcases hrelease c hc with ⟨ii, _, h⟩ | h <;> subst h <;> rfl
    · subst hc; rfl
  · exact hrelease
  · intro ii hii
    exact loop_body_within unbindInput self.m_nInputs ii hii

/-- Instance of C10: a source plugin (no input) given an empty texture list. -/
theorem processOpenGL_command_order_witness :
    (SourcePlugin brightnessTable 0).m_nInputs ≤ noTexture.numInputTextures ∧
      (∀ ii, ii < (SourcePlugin brightnessTable 0).m_nInputs →
        noTexture.inputTexture ii ≠ none) ∧
      ((SourcePlugin brightnessTable 0).ProcessOpenGL 64 noTexture ⟨5, 0⟩).ret = FF_SUCCESS :=
  ⟨by decide, fun ii hii => absurd hii (Nat.not_lt_zero ii),
    (processOpenGL_command_order 64 (SourcePlugin brightnessTable 0) noTexture ⟨5, 0⟩ (by decide)
      (fun ii hii => absurd hii (Nat.not_lt_zero ii))).1⟩

end Grainmarch
